import Mathlib

/-!
Shallow embedding of the xynenyx-agent workflow executor and its data-shaping
services, translated from the Python sources:

  * `app/graph/state.py`    — the `AgentState` record threaded through a turn
  * `app/graph/edges.py`    — the conditional edge functions
  * `app/graph/graph.py`    — the routers installed by `build_agent_graph` and
                              the conditional-edge mappings
  * `app/graph/nodes.py`    — `validate_response`, `generate_response`,
                              `handle_error`
  * `app/services/query_decomposer.py` — `QueryDecomposer.merge_results`
  * `app/services/context_compressor.py` — `ContextCompressor.compress_context`
                              and `ContextCompressor._compress_item`
  * `app/graph/checkpointer.py` — `SupabaseCheckpointer.put`

External calls (LLM completions, the Supabase upsert) are modelled as oracle
parameters: the oracle result stands for the outcome of the call, with `none`
(or `Except.error`) standing for a raised exception that the surrounding
`try/except` observes.  Python dictionary fields that can be absent or `None`
are modelled as `Option` when no code path distinguishes the two, and as the
three-valued `PyStr` for `state["error"]`, whose handler does distinguish an
absent key (default text) from a stored `None` (formatted as the text `None`).
-/

namespace Xynenyx

/-- Message roles; LangChain `HumanMessage` / `AIMessage` / `SystemMessage`
map to `user` / `assistant` / `system`. -/
inductive Role
  | user
  | assistant
  | system
  deriving DecidableEq, Repr

/-- One conversation message: a role plus text content. -/
structure Msg where
  role : Role
  content : String
  deriving DecidableEq, Repr

/-- A Python optional-string slot that distinguishes a missing key, a stored
`None`, and a stored string (needed by `handle_error`, which reads
`state.get("error", "An unknown error occurred")` — the default applies only
to a missing key, while a stored `None` is formatted as the text `None`). -/
inductive PyStr
  | absent
  | null
  | str (s : String)
  deriving DecidableEq, Repr

/-- Python truthiness of a `PyStr`: only a non-empty string is truthy. -/
def PyStr.truthy : PyStr → Bool
  | .str s => !(s == "")
  | _ => false

/-- Metadata values that the compressor stores: booleans, strings, string
lists, and JSON `null` (Python `None`). -/
inductive MVal
  | vB (b : Bool)
  | vS (s : String)
  | vL (l : List String)
  | vNull
  deriving DecidableEq, Repr

/-- A metadata dictionary, as an association list. -/
structure Meta where
  kvs : List (String × MVal) := []
  deriving DecidableEq, Repr

/-- First binding of a key in an association list. -/
def lookupKV (k : String) : List (String × MVal) → Option MVal
  | [] => none
  | x :: xs => if x.1 = k then some x.2 else lookupKV k xs

/-- Remove every binding of a key from an association list. -/
def removeKV (k : String) : List (String × MVal) → List (String × MVal)
  | [] => []
  | x :: xs => if x.1 = k then removeKV k xs else x :: removeKV k xs

/-- Dictionary lookup. -/
def Meta.get? (m : Meta) (k : String) : Option MVal :=
  lookupKV k m.kvs

/-- Dictionary update `{**m, k: v}`: the new binding replaces any old one
(observationally the Python dict semantics — only `get?` reads a `Meta`). -/
def Meta.set (m : Meta) (k : String) (v : MVal) : Meta :=
  ⟨removeKV k m.kvs ++ [(k, v)]⟩

/-- An evidence item / citation record, with the dictionary keys the
decomposer and compressor read (`content`, `metadata`, `document_id`,
`chunk_id`, `id`, `similarity`).  `Option` fields model keys that may be
absent; the numeric `similarity` score is carried as an uninterpreted `Int`
stand-in since no modelled code computes with it. -/
structure Item where
  content : String := ""
  metadata : Meta := {}
  document_id : Option String := none
  chunk_id : Option String := none
  id : Option String := none
  similarity : Option Int := none
  deriving DecidableEq, Repr

/-- The parsed JSON verdict produced by the validation LLM call
(`nodes.validate_response`). -/
structure ValidationResult where
  is_valid : Option Bool := none
  issues : List String := []
  missing_citations : List String := []
  hallucinations : List String := []
  corrections_needed : Option Bool := none
  deriving DecidableEq, Repr

/-- `AgentState` from `app/graph/state.py`.  Fields typed `Optional` in the
source are `Option` here; `error` keeps the three-valued `PyStr` model. -/
structure AgentState where
  messages : List Msg := []
  user_id : String := ""
  conversation_id : String := ""
  intent : Option String := none
  context : List Item := []
  tools_used : List String := []
  requires_human : Bool := false
  error : PyStr := .null
  sources : List Item := []
  usage : Option (List (String × Nat)) := none
  reasoning : Option String := none
  validation : Option ValidationResult := none
  validation_retried : Bool := false
  deriving DecidableEq, Repr

/-! ## Conditional edge functions (`app/graph/edges.py`) -/

/-- `edges.should_retrieve_context`: research-style intents go to
`retrieve_context`, anything else (including a missing intent) to
`execute_tools`. -/
def should_retrieve_context (state : AgentState) : String :=
  match state.intent with
  | some i =>
    if i ∈ (["research_query", "temporal_query", "entity_research"] : List String) then
      "retrieve_context"
    else
      "execute_tools"
  | none => "execute_tools"

/-- `edges.should_use_reasoning`: complex intents go to `reasoning_step`,
anything else to `generate_response`. -/
def should_use_reasoning (state : AgentState) : String :=
  match state.intent with
  | some i =>
    if i ∈ (["trend_analysis", "comparison"] : List String) then
      "reasoning_step"
    else
      "generate_response"
  | none => "generate_response"

/-! ## Routers installed by `build_agent_graph` (`app/graph/graph.py`) -/

/-- `graph.route_from_classify_intent`: error override first, then
`should_retrieve_context`, with a defensive default to `retrieve_context`
if the result were outside the edge mapping. -/
def route_from_classify_intent (state : AgentState) : String :=
  if state.error.truthy then "handle_error"
  else
    let result := should_retrieve_context state
    if result ∉ (["retrieve_context", "execute_tools", "handle_error"] : List String) then
      "retrieve_context"
    else
      result

/-- `graph.route_from_retrieve_context`: error override, then reasoning
check. -/
def route_from_retrieve_context (state : AgentState) : String :=
  if state.error.truthy then "handle_error"
  else should_use_reasoning state

/-- `graph.route_from_reasoning_step`: error override, then generation. -/
def route_from_reasoning_step (state : AgentState) : String :=
  if state.error.truthy then "handle_error"
  else "generate_response"

/-- `graph.route_from_execute_tools`: error override, then reasoning check. -/
def route_from_execute_tools (state : AgentState) : String :=
  if state.error.truthy then "handle_error"
  else should_use_reasoning state

/-- `graph.route_from_generate_response`: error override, then validation. -/
def route_from_generate_response (state : AgentState) : String :=
  if state.error.truthy then "handle_error"
  else "validate_response"

/-- `graph.route_from_validate_response`: error override; a state already
retried goes to `END`; a corrections-needed verdict goes back to
`generate_response`; otherwise `END`.  (`state.get("validation", {})` is
modelled by `Option.getD` with the empty verdict.) -/
def route_from_validate_response (state : AgentState) : String :=
  if state.error.truthy then "handle_error"
  else if state.validation_retried then "END"
  else if ((state.validation.getD {}).corrections_needed.getD false) then "generate_response"
  else "END"

/-- The graph nodes added by `build_agent_graph`. -/
inductive Node
  | classify_intent
  | retrieve_context
  | execute_tools
  | reasoning_step
  | generate_response
  | validate_response
  | handle_error
  deriving DecidableEq, Repr

/-- A routing target: another node, or the terminal `END` sentinel. -/
inductive Target
  | node (n : Node)
  | END
  deriving DecidableEq, Repr

/-- The edge mapping of `add_conditional_edges("classify_intent", ...)`. -/
def classifyEdges : String → Option Target
  | "retrieve_context" => some (.node .retrieve_context)
  | "execute_tools" => some (.node .execute_tools)
  | "handle_error" => some (.node .handle_error)
  | _ => none

/-- The edge mapping of `add_conditional_edges("retrieve_context", ...)`. -/
def retrieveEdges : String → Option Target
  | "reasoning_step" => some (.node .reasoning_step)
  | "generate_response" => some (.node .generate_response)
  | "handle_error" => some (.node .handle_error)
  | _ => none

/-- The edge mapping of `add_conditional_edges("reasoning_step", ...)`. -/
def reasoningEdges : String → Option Target
  | "generate_response" => some (.node .generate_response)
  | "handle_error" => some (.node .handle_error)
  | _ => none

/-- The edge mapping of `add_conditional_edges("execute_tools", ...)`. -/
def executeEdges : String → Option Target
  | "reasoning_step" => some (.node .reasoning_step)
  | "generate_response" => some (.node .generate_response)
  | "handle_error" => some (.node .handle_error)
  | _ => none

/-- The edge mapping of `add_conditional_edges("generate_response", ...)`. -/
def generateEdges : String → Option Target
  | "validate_response" => some (.node .validate_response)
  | "handle_error" => some (.node .handle_error)
  | _ => none

/-- The edge mapping of `add_conditional_edges("validate_response", ...)`. -/
def validateEdges : String → Option Target
  | "generate_response" => some (.node .generate_response)
  | "END" => some .END
  | "handle_error" => some (.node .handle_error)
  | _ => none

/-- The routing table of the compiled graph: after node `n` finishes on
state `s`, the executor follows the conditional edge; `handle_error` has the
fixed edge `graph.add_edge("handle_error", END)`. -/
def nextTarget (n : Node) (s : AgentState) : Option Target :=
  match n with
  | .classify_intent => classifyEdges (route_from_classify_intent s)
  | .retrieve_context => retrieveEdges (route_from_retrieve_context s)
  | .execute_tools => executeEdges (route_from_execute_tools s)
  | .reasoning_step => reasoningEdges (route_from_reasoning_step s)
  | .generate_response => generateEdges (route_from_generate_response s)
  | .validate_response => validateEdges (route_from_validate_response s)
  | .handle_error => some .END

/-! ## `QueryDecomposer.merge_results` (`app/services/query_decomposer.py`) -/

/-- One transient sub-query result (`{"results": ..., "sources": ...,
"count": ...}` built in `nodes.retrieve_context`). -/
structure SubQueryResult where
  results : List Item := []
  sources : List Item := []
  count : Nat := 0
  deriving DecidableEq, Repr

/-- The dictionary returned by `QueryDecomposer.merge_results`. -/
structure MergedResults where
  results : List Item
  sources : List Item
  count : Nat
  sub_query_count : Nat
  deriving DecidableEq, Repr

/-- Python `a or b` on two optional strings: `a` when truthy, else `b`. -/
def pyOrStr : Option String → Option String → Option String
  | some s, b => if s = "" then b else some s
  | none, b => b

/-- Python truthiness filter on an optional string: `none` unless the value
is a non-empty string. -/
def truthyStr : Option String → Option String
  | some s => if s = "" then none else some s
  | none => none

/-- `result.get("chunk_id") or result.get("id")` followed by the truthiness
test `if chunk_id ...`: the deduplication key of an item, or `none` when the
key would be falsy (both fields absent, `None`, or empty strings). -/
def Item.dedupKey (r : Item) : Option String :=
  truthyStr (pyOrStr r.chunk_id r.id)

/-- One pass of the merge deduplication loop: threads the `seen_chunk_ids`
set through the list, keeping an item only when its key is truthy and not
yet seen, and returning the final seen set alongside the kept items. -/
def dedupPass : List String → List Item → List String × List Item
  | seen, [] => (seen, [])
  | seen, r :: rest =>
    match r.dedupKey with
    | some k =>
      if k ∈ seen then dedupPass seen rest
      else ((dedupPass (k :: seen) rest).1, r :: (dedupPass (k :: seen) rest).2)
    | none => dedupPass seen rest

/-- `QueryDecomposer.merge_results`: concatenate all sub-results, then run
the deduplication loop over the combined evidence list and — with the SAME
`seen_chunk_ids` set carried over — the combined citation list. -/
def QueryDecomposer.merge_results (sub_query_results : List SubQueryResult)
    (original_query : String) : MergedResults :=
  let all_results := sub_query_results.flatMap (·.results)
  let all_sources := sub_query_results.flatMap (·.sources)
  let resPass := dedupPass [] all_results
  let srcPass := dedupPass resPass.1 all_sources
  { results := resPass.2
    sources := srcPass.2
    count := resPass.2.length
    sub_query_count := sub_query_results.length }

/-! ## `ContextCompressor` (`app/services/context_compressor.py`) -/

/-- The parsed JSON object produced by the fact-extraction LLM call inside
`ContextCompressor._compress_item`. -/
structure Facts where
  summary : Option String := none
  funding_amount : Option String := none
  company : Option String := none
  date : Option String := none
  investors : Option (List String) := none
  sectors : Option (List String) := none
  key_points : Option (List String) := none
  deriving DecidableEq, Repr

/-- Translate an optional string field of the extracted facts to the stored
metadata value (`metadata.update` stores Python `None` as-is). -/
def MVal.ofOptS : Option String → MVal
  | some s => .vS s
  | none => .vNull

/-- Translate an optional string-list field of the extracted facts to the
stored metadata value. -/
def MVal.ofOptL : Option (List String) → MVal
  | some l => .vL l
  | none => .vNull

/-- `ContextCompressor._compress_item`: empty content yields `None`
(the item is dropped); otherwise the fact-extraction call either succeeds
(`oracle = some facts`) and rebuilds the item from the extracted facts, or
raises (`oracle = none`) and falls back to a 300-character truncation.  Both
surviving shapes set `compressed: True` in the metadata. -/
def ContextCompressor.compressItem (oracle : Item → Option Facts)
    (query : String) (item : Item) : Option Item :=
  let content := item.content
  let metadata := item.metadata
  if content = "" then none
  else
    match oracle item with
    | none =>
      some { item with
              content := content.take 300 ++ "...",
              metadata :=
                (metadata.set "compressed" (.vB true)).set "compression_method"
                  (.vS "truncation") }
    | some facts =>
      let compressed_content := facts.summary.getD (content.take 200)
      let compressed_content :=
        match facts.key_points with
        | some kps =>
          if kps.isEmpty then compressed_content
          else compressed_content ++ "\n\nKey points: " ++
            String.intercalate "; " (kps.take 3)
        | none => compressed_content
      let compressed_metadata :=
        (((((metadata.set "extracted_funding" (.ofOptS facts.funding_amount)).set
            "extracted_company" (.ofOptS facts.company)).set
            "extracted_date" (.ofOptS facts.date)).set
            "extracted_investors" (.ofOptL facts.investors)).set
            "extracted_sectors" (.ofOptL facts.sectors)).set
            "compressed" (.vB true)
      some { content := compressed_content
             metadata := compressed_metadata
             document_id := item.document_id
             chunk_id := item.chunk_id
             id := none
             similarity := some (item.similarity.getD 0) }

/-- `self.max_context_tokens` set in `ContextCompressor.__init__`. -/
def ContextCompressor.max_context_tokens : Nat := 4000

/-- `ContextCompressor.compress_context`: empty input returned as-is; under
the `total_characters // 4` token budget returned as-is; over budget with
more than 5 items, keep the first 5 and truncate each to 500 characters
(plus ellipsis), tagging them compressed; otherwise run per-item fact
extraction, dropping items for which `_compress_item` returned `None`.
(The body of the source `try` raises nothing once the per-item LLM failures
are folded into the oracle, so the top-level fallback branch of the source
is unreachable in this model.) -/
def ContextCompressor.compress_context (oracle : Item → Option Facts)
    (context : List Item) (query : String) : List Item :=
  if context.isEmpty then context
  else if (context.map (fun item => item.content.length)).sum / 4 ≤
      ContextCompressor.max_context_tokens then context
  else if context.length > 5 then
    (context.take 5).map (fun item =>
      { item with
          content := if item.content.length > 500 then item.content.take 500 ++ "..."
                     else item.content,
          metadata :=
            (item.metadata.set "compressed" (.vB true)).set "compression_method"
              (.vS "truncation") })
  else
    context.filterMap (ContextCompressor.compressItem oracle query)

/-! ## Node functions (`app/graph/nodes.py`) -/

/-- The `{content, usage}` dictionary returned by the model-serving
collaborator for a completion call. -/
structure LLMResponse where
  content : String := ""
  usage : Option (List (String × Nat)) := none
  deriving DecidableEq, Repr

/-- Content of the latest `HumanMessage`, or the empty string when there is
none (the query handed to the compressor by `generate_response`). -/
def lastUserContent (state : AgentState) : String :=
  match (state.messages.filter (fun m => m.role == Role.user)).getLast? with
  | some m => m.content
  | none => ""

/-- `nodes.generate_response`.  The prompt assembly (system prompt choice,
reasoning fold-in, context formatting) only shapes the inputs of the LLM
call and is folded into `llmOracle`, which stands for the whole fallible
`try` body up to and including the completion call (the source body can
raise at the call itself and at the `settings.intent_temperature_mapping`
attribute lookup).  On success the node appends the assistant message and
stores a coerced `usage` dictionary; the compressed context is a local
variable only and `state.context` is left unchanged.  On failure it records
`state.error` and still coerces a missing `usage` to the empty mapping. -/
def generate_response (compressOracle : Item → Option Facts)
    (llmOracle : Except String LLMResponse) (state : AgentState) : AgentState :=
  match llmOracle with
  | .error e =>
    { state with
        error := .str ("Failed to generate response: " ++ e),
        usage := match state.usage with
                 | none => some []
                 | some u => some u }
  | .ok response =>
    let _compressed_context :=
      if state.context.isEmpty then state.context
      else ContextCompressor.compress_context compressOracle state.context
        (lastUserContent state)
    let assistant_message : Msg := ⟨.assistant, response.content⟩
    let usage := response.usage.getD []
    { state with
        messages := state.messages ++ [assistant_message],
        usage := some usage,
        sources := if state.sources.isEmpty then [] else state.sources }

/-- `nodes.validate_response`.  With no assistant message the state is
returned unchanged.  `vOracle` stands for the validation completion plus
`json.loads`; `none` is a raised-and-swallowed failure that leaves the state
unchanged.  A parsed verdict is stored in `validation`; when
`corrections_needed` is truthy the node ALSO sets `validation_retried` to
`True` ("Validation retry disabled to prevent message duplication" — the
router therefore goes to `END` instead of regenerating). -/
def validate_response (vOracle : Option ValidationResult)
    (state : AgentState) : AgentState :=
  let assistant_messages := state.messages.filter (fun m => m.role == Role.assistant)
  if assistant_messages.isEmpty then state
  else
    match vOracle with
    | none => state
    | some validation_result =>
      let corrections_needed := validation_result.corrections_needed.getD false
      if corrections_needed then
        { state with
            validation := some validation_result,
            validation_retried := true }
      else
        { state with validation := some validation_result }

/-- The apology text `handle_error` interpolates around the error text. -/
def apologyPre : String :=
  "I apologize, but I encountered an error while processing your request: "

/-- The trailing apology text appended after the error text. -/
def apologyPost : String :=
  ". Please try rephrasing your question or try again later."

/-- `nodes.handle_error`: read the error (missing key defaults to a generic
text, a stored `None` is formatted as the text `None`), force `usage` to a
mapping, append the assistant apology message naming the error, and clear
`error` to `None`. -/
def handle_error (state : AgentState) : AgentState :=
  let error_text : String :=
    match state.error with
    | .absent => "An unknown error occurred"
    | .null => "None"
    | .str e => e
  let error_message : Msg := ⟨.assistant, apologyPre ++ error_text ++ apologyPost⟩
  { state with
      usage := match state.usage with
               | none => some []
               | some u => some u,
      messages := state.messages ++ [error_message],
      error := .null }

/-! ## `SupabaseCheckpointer.put` (`app/graph/checkpointer.py`) and the
graph singleton (`app/graph/graph.py`) -/

/-- The row `put` assembles for the `agent_checkpoints` upsert, generic over
the serialized state payload. -/
structure CheckpointRow (α : Type) where
  thread_id : String
  checkpoint_id : String
  checkpoint : α
  metadata : List (String × String)
  parent_checkpoint_id : Option String

/-- `SupabaseCheckpointer.put`: build the row (the parent id is included
only when truthy, the metadata defaults to the empty mapping), run the
upsert, and either log a debug line on success or log the failure and
RE-RAISE it (`except ... logger.error(...); raise`).  The returned pair is
(log lines, outcome); an `Except.error` outcome is an exception propagating
to the caller. -/
def SupabaseCheckpointer.put {α : Type}
    (upsert : CheckpointRow α → Except String Unit)
    (thread_id checkpoint_id : String) (checkpoint : α)
    (parent_checkpoint_id : Option String)
    (metadata : Option (List (String × String))) :
    List String × Except String Unit :=
  let data : CheckpointRow α :=
    { thread_id := thread_id
      checkpoint_id := checkpoint_id
      checkpoint := checkpoint
      metadata := metadata.getD []
      parent_checkpoint_id :=
        match parent_checkpoint_id with
        | some p => if p = "" then none else some p
        | none => none }
  match upsert data with
  | .ok _ =>
    (["Saved checkpoint " ++ checkpoint_id ++ " for thread " ++ thread_id], .ok ())
  | .error e =>
    (["Failed to save checkpoint: " ++ e], .error e)

/-- `graph.get_agent_graph` compiles the graph with `checkpointer = None`
("Temporarily disable checkpointer..."), so the executor never performs a
checkpoint write. -/
def get_agent_graph_checkpointer : Option Unit := none

/-! ## Concrete states and inputs used by counterexamples and witnesses -/

/-- A state carrying a non-empty error text. -/
def errBoomState : AgentState := { error := .str "boom" }

/-- A state whose intent is outside every known intent value. -/
def unknownIntentState : AgentState := { intent := some "weather_smalltalk" }

/-- A validation verdict requesting corrections. -/
def correctionsVerdict : ValidationResult :=
  { is_valid := some false
    issues := ["missing citation"]
    corrections_needed := some true }

/-- The state entering `validate_response` for the first time: one user
message, one freshly generated assistant draft, no retry yet. -/
def preValidateState : AgentState :=
  { messages := [⟨.user, "q"⟩, ⟨.assistant, "draft answer"⟩]
    validation_retried := false
    error := .null }

/-- A state that hit a timeout during generation. -/
def timeoutState : AgentState :=
  { messages := [⟨.user, "q"⟩], error := .str "timeout" }

/-- A 1000-character content string. -/
def longContent : String := String.mk (List.replicate 1000 'a')

/-- Twenty evidence items of 1000 characters each (Scenario D input). -/
def twentyBigItems : List Item := List.replicate 20 { content := longContent }

/-- A 3000-character content string. -/
def content3000 : String := String.mk (List.replicate 3000 'b')

/-- Six distinct oversized evidence items, identified `c0` … `c5`. -/
def sixItems : List Item :=
  (List.range 6).map (fun i => { content := content3000, chunk_id := some ("c" ++ toString i) })

/-- The item shape produced by fast truncation on the 1000-character
items: 500 kept characters plus the ellipsis, tagged compressed. -/
def truncatedBigItem : Item :=
  { content := String.mk (List.replicate 500 'a') ++ "..."
    metadata := ⟨[("compressed", MVal.vB true), ("compression_method", MVal.vS "truncation")]⟩ }

/-- A single small evidence item, far under the compression budget. -/
def smallItem : Item := { content := "hi" }

/-- Evidence from the first sub-query, chunk `x1`. -/
def evidenceA : Item := { content := "evidence A", chunk_id := some "x1" }

/-- Evidence from the second sub-query, the same chunk `x1`. -/
def evidenceB : Item := { content := "evidence B", chunk_id := some "x1" }

/-- Citation derived from the first sub-query result, chunk `x1`. -/
def citationA : Item := { content := "citation A", chunk_id := some "x1" }

/-- Citation derived from the second sub-query result, chunk `x1`. -/
def citationB : Item := { content := "citation B", chunk_id := some "x1" }

/-- First sub-query result set: one evidence item and its citation. -/
def subResultA : SubQueryResult :=
  { results := [evidenceA], sources := [citationA], count := 1 }

/-- Second sub-query result set: the same chunk retrieved again. -/
def subResultB : SubQueryResult :=
  { results := [evidenceB], sources := [citationB], count := 1 }

/-! ## Helper lemmas -/

/-- Looking up a key in removed-then-appended form finds the new value. -/
theorem lookupKV_remove_append_self (k : String) (v : MVal) :
    ∀ l : List (String × MVal), lookupKV k (removeKV k l ++ [(k, v)]) = some v := by
  intro l
  induction l with
  | nil => simp [removeKV, lookupKV]
  | cons x xs ih =>
    by_cases hx : x.1 = k
    · rw [removeKV, if_pos hx]
      exact ih
    · rw [removeKV, if_neg hx, List.cons_append, lookupKV, if_neg hx]
      exact ih

/-- Looking up a different key ignores a removed-then-appended binding. -/
theorem lookupKV_remove_append_ne (k k' : String) (v : MVal) (h : k' ≠ k) :
    ∀ l : List (String × MVal), lookupKV k' (removeKV k l ++ [(k, v)]) = lookupKV k' l := by
  intro l
  induction l with
  | nil => simp [removeKV, lookupKV, Ne.symm h]
  | cons x xs ih =>
    by_cases hx : x.1 = k
    · rw [removeKV, if_pos hx, lookupKV, if_neg (by rw [hx]; exact Ne.symm h)]
      exact ih
    · rw [removeKV, if_neg hx, List.cons_append, lookupKV, lookupKV]
      by_cases hx' : x.1 = k'
      · rw [if_pos hx', if_pos hx']
      · rw [if_neg hx', if_neg hx']
        exact ih

/-- Looking up the key just stored finds the stored value. -/
theorem Meta.get?_set_self (m : Meta) (k : String) (v : MVal) :
    (m.set k v).get? k = some v :=
  lookupKV_remove_append_self k v m.kvs

/-- Storing under a different key leaves a lookup unchanged. -/
theorem Meta.get?_set_ne (m : Meta) (k k' : String) (v : MVal) (h : k' ≠ k) :
    (m.set k v).get? k' = m.get? k' :=
  lookupKV_remove_append_ne k k' v h m.kvs

/-- The metadata written by every truncation branch carries
`compressed: True`. -/
theorem meta_truncation_marked (m : Meta) :
    ((m.set "compressed" (.vB true)).set "compression_method"
        (.vS "truncation")).get? "compressed" = some (.vB true) := by
  rw [Meta.get?_set_ne _ _ _ _ (by simp), Meta.get?_set_self]

/-- Every item that survives `_compress_item` carries `compressed: True`. -/
theorem compressItem_marked (oracle : Item → Option Facts) (q : String)
    (i r : Item) (h : ContextCompressor.compressItem oracle q i = some r) :
    r.metadata.get? "compressed" = some (MVal.vB true) := by
  unfold ContextCompressor.compressItem at h
  by_cases hc : i.content = ""
  · simp [hc] at h
  · rw [if_neg hc] at h
    cases horacle : oracle i with
    | none =>
      rw [horacle] at h
      simp only [Option.some.injEq] at h
      subst h
      exact meta_truncation_marked _
    | some facts =>
      rw [horacle] at h
      simp only [Option.some.injEq] at h
      subst h
      exact Meta.get?_set_self _ _ _

/-- The 1000-character content has length 1000 (by the list lemmas, without
evaluating the string). -/
theorem longContent_length : longContent.length = 1000 := by
  rw [longContent, String.length_mk, List.length_replicate]

/-- Taking 500 characters of the 1000-character content yields the
500-character replicate. -/
theorem longContent_take : longContent.take 500 = String.mk (List.replicate 500 'a') := by
  rw [longContent, String.take_eq]
  show String.mk ((List.replicate 1000 'a').take 500) = _
  rw [List.take_replicate]
  rfl

/-- The 3000-character content has length 3000. -/
theorem content3000_length : content3000.length = 3000 := by
  rw [content3000, String.length_mk, List.length_replicate]

/-- Taking 500 characters of the 3000-character content yields the
500-character replicate. -/
theorem content3000_take : content3000.take 500 = String.mk (List.replicate 500 'b') := by
  rw [content3000, String.take_eq]
  show String.mk ((List.replicate 3000 'b').take 500) = _
  rw [List.take_replicate]
  rfl

/-- Branch characterization of the compressor: a non-empty, over-budget
context of more than five items takes the fast-truncation path. -/
theorem compress_branch_trunc (oracle : Item → Option Facts)
    (ctx : List Item) (q : String)
    (h1 : ctx.isEmpty = false)
    (h2 : ¬((ctx.map (fun item => item.content.length)).sum / 4 ≤
        ContextCompressor.max_context_tokens))
    (h3 : ctx.length > 5) :
    ContextCompressor.compress_context oracle ctx q =
      (ctx.take 5).map (fun item =>
        { item with
            content := if item.content.length > 500 then item.content.take 500 ++ "..."
                       else item.content,
            metadata :=
              (item.metadata.set "compressed" (.vB true)).set "compression_method"
                (.vS "truncation") }) := by
  unfold ContextCompressor.compress_context
  rw [if_neg (by simp [h1]), if_neg h2, if_pos h3]

/-- The Scenario D context sums to 20000 characters. -/
theorem twentyBigItems_sum :
    (twentyBigItems.map (fun item => item.content.length)).sum = 20000 := by
  rw [twentyBigItems, List.map_replicate]
  show (List.replicate 20 longContent.length).sum = 20000
  rw [List.sum_replicate, longContent_length, smul_eq_mul]

/-- On the Scenario D context the compressor returns five copies of the
truncated 503-character item, for every oracle and query. -/
theorem compress_twentyBigItems_eq (oracle : Item → Option Facts) (q : String) :
    ContextCompressor.compress_context oracle twentyBigItems q =
      List.replicate 5 truncatedBigItem := by
  rw [compress_branch_trunc oracle twentyBigItems q
      (by rw [twentyBigItems]; rfl)
      (by rw [twentyBigItems_sum]; decide)
      (by rw [twentyBigItems, List.length_replicate]; decide)]
  rw [twentyBigItems, List.take_replicate, List.map_replicate]
  have hmin : min 5 20 = 5 := by decide
  rw [hmin]
  have hitem :
      (fun item =>
        { item with
            content := if item.content.length > 500 then item.content.take 500 ++ "..."
                       else item.content,
            metadata :=
              (item.metadata.set "compressed" (.vB true)).set "compression_method"
                (.vS "truncation") }) ({ content := longContent } : Item) =
        truncatedBigItem := by
    show ({ content := if longContent.length > 500 then longContent.take 500 ++ "..."
                       else longContent,
            metadata :=
              ((({} : Meta).set "compressed" (.vB true)).set "compression_method"
                (.vS "truncation")) } : Item) = truncatedBigItem
    rw [if_pos (by rw [longContent_length]; decide), longContent_take]
    rfl
  exact congrArg (List.replicate 5) hitem

/-- The six-item context sums to 18000 characters. -/
theorem sixItems_sum :
    (sixItems.map (fun item => item.content.length)).sum = 18000 := by
  rw [sixItems, List.map_map]
  show ((List.range 6).map (fun _ => content3000.length)).sum = 18000
  rw [List.map_const', List.sum_replicate, List.length_range, content3000_length,
    smul_eq_mul]

/-- On the six-item context the compressor takes the fast-truncation path:
the first five items truncated and tagged, the sixth dropped. -/
theorem compress_sixItems_eq (oracle : Item → Option Facts) (q : String) :
    ContextCompressor.compress_context oracle sixItems q =
      (sixItems.take 5).map (fun item =>
        { item with
            content := if item.content.length > 500 then item.content.take 500 ++ "..."
                       else item.content,
            metadata :=
              (item.metadata.set "compressed" (.vB true)).set "compression_method"
                (.vS "truncation") }) :=
  compress_branch_trunc oracle sixItems q
    (by rw [sixItems]; rfl)
    (by rw [sixItems_sum]; decide)
    (by rw [sixItems, List.length_map, List.length_range]; decide)

/-- Items kept by the deduplication loop all had a truthy key. -/
theorem dedupPass_mem_key (res : Item) :
    ∀ (l : List Item) (seen : List String),
      res ∈ (dedupPass seen l).2 → res.dedupKey ≠ none := by
  intro l
  induction l with
  | nil =>
    intro seen h
    simp [dedupPass] at h
  | cons r rest ih =>
    intro seen h
    unfold dedupPass at h
    split at h
    next k hk =>
      split at h
      · exact ih _ h
      · have h' : res ∈ r :: (dedupPass (k :: seen) rest).2 := h
        rcases List.mem_cons.mp h' with hr | htail
        · rw [hr, hk]
          simp
        · exact ih _ htail
    next hk => exact ih _ h

/-- A truthy value out of `truthyStr` is the non-empty input string. -/
theorem truthyStr_some (o : Option String) (k : String)
    (h : truthyStr o = some k) : o = some k ∧ k ≠ "" := by
  cases o with
  | none => simp [truthyStr] at h
  | some s =>
    by_cases hs : s = ""
    · simp [truthyStr, hs] at h
    · simp [truthyStr, hs] at h
      exact ⟨by rw [h], h ▸ hs⟩

/-- `pyOrStr` only ever returns one of its two arguments. -/
theorem pyOrStr_eq (a b : Option String) (k : String)
    (h : pyOrStr a b = some k) : a = some k ∨ b = some k := by
  cases a with
  | none => exact Or.inr h
  | some s =>
    by_cases hs : s = ""
    · simp [pyOrStr, hs] at h
      exact Or.inr h
    · simp [pyOrStr, hs] at h
      exact Or.inl (by rw [h])

/-- A truthy deduplication key is a non-empty `chunk_id` or `id`. -/
theorem dedupKey_source (it : Item) (k : String) (h : it.dedupKey = some k) :
    k ≠ "" ∧ (it.chunk_id = some k ∨ it.id = some k) := by
  unfold Item.dedupKey at h
  rcases truthyStr_some _ _ h with ⟨hor, hk⟩
  exact ⟨hk, pyOrStr_eq _ _ _ hor⟩

/-! ## Claim theorems -/

/-- C1: for every state with a truthy (non-empty) `error` after any routed
node, every conditional edge of the routing table forces the next node to be
`handle_error`; `handle_error` itself transitions unconditionally to `END`
(and clears the error, so it can never re-enter with a non-empty error). -/
theorem error_override_forces_handle_error :
    (∀ (n : Node) (s : AgentState), n ≠ Node.handle_error →
        s.error.truthy = true →
        nextTarget n s = some (Target.node Node.handle_error)) ∧
    (∀ s : AgentState, nextTarget Node.handle_error s = some Target.END) ∧
    (∀ s : AgentState, ((handle_error s).error).truthy = false) := by
  refine ⟨?_, fun s => rfl, fun s => rfl⟩
  intro n s hn herr
  cases n with
  | handle_error => exact absurd rfl hn
  | classify_intent =>
    simp [nextTarget, route_from_classify_intent, herr, classifyEdges]
  | retrieve_context =>
    simp [nextTarget, route_from_retrieve_context, herr, retrieveEdges]
  | execute_tools =>
    simp [nextTarget, route_from_execute_tools, herr, executeEdges]
  | reasoning_step =>
    simp [nextTarget, route_from_reasoning_step, herr, reasoningEdges]
  | generate_response =>
    simp [nextTarget, route_from_generate_response, herr, generateEdges]
  | validate_response =>
    simp [nextTarget, route_from_validate_response, herr, validateEdges]

/-- Witness for C1: concrete error state routed from `retrieve_context`. -/
theorem error_override_forces_handle_error_witness :
    nextTarget Node.retrieve_context errBoomState = some (Target.node Node.handle_error) ∧
    nextTarget Node.handle_error errBoomState = some Target.END :=
  ⟨error_override_forces_handle_error.1 Node.retrieve_context errBoomState
      (by decide) (by decide),
   error_override_forces_handle_error.2.1 errBoomState⟩

/-- C4 counterexample: the unrecognized intent `weather_smalltalk` routes to
`execute_tools`, not to the default research path `retrieve_context` that
the claim states. -/
theorem unknown_intent_counterexample :
    route_from_classify_intent unknownIntentState = "execute_tools" ∧
    route_from_classify_intent unknownIntentState ≠ "retrieve_context" ∧
    nextTarget Node.classify_intent unknownIntentState =
      some (Target.node Node.execute_tools) := by decide

/-- C4 amended: for every error-free state whose intent lies outside the
research set, routing after `classify_intent` selects `execute_tools` (the
`otherwise` edge), and it never throws; `should_retrieve_context` is total
and only ever returns `retrieve_context` or `execute_tools`, so the
warning/default branch of `route_from_classify_intent` is unreachable. -/
theorem unknown_intent_routes_to_execute_tools
    (s : AgentState) (i : String)
    (herr : s.error.truthy = false) (hint : s.intent = some i)
    (hni : i ∉ (["research_query", "temporal_query", "entity_research"] : List String)) :
    route_from_classify_intent s = "execute_tools" ∧
    nextTarget Node.classify_intent s = some (Target.node Node.execute_tools) ∧
    (∀ t : AgentState, should_retrieve_context t = "retrieve_context" ∨
        should_retrieve_context t = "execute_tools") := by
  have hsrc : should_retrieve_context s = "execute_tools" := by
    unfold should_retrieve_context
    rw [hint]
    exact if_neg hni
  have hroute : route_from_classify_intent s = "execute_tools" := by
    unfold route_from_classify_intent
    rw [herr]
    simp [hsrc]
  refine ⟨hroute, ?_, ?_⟩
  · show classifyEdges (route_from_classify_intent s) = _
    rw [hroute]
    rfl
  · intro t
    unfold should_retrieve_context
    cases t.intent with
    | none => exact Or.inr rfl
    | some j =>
      by_cases hj : j ∈ (["research_query", "temporal_query", "entity_research"] : List String)
      · exact Or.inl (if_pos hj)
      · exact Or.inr (if_neg hj)

/-- Witness for C4 amended: evaluated at the concrete unknown intent. -/
theorem unknown_intent_routes_to_execute_tools_witness :
    route_from_classify_intent unknownIntentState = "execute_tools" ∧
    nextTarget Node.classify_intent unknownIntentState =
      some (Target.node Node.execute_tools) ∧
    (∀ t : AgentState, should_retrieve_context t = "retrieve_context" ∨
        should_retrieve_context t = "execute_tools") :=
  unknown_intent_routes_to_execute_tools unknownIntentState "weather_smalltalk"
    (by decide) (by decide) (by decide)

/-- C7: after `generate_response` — whether the completion call succeeds or
the node records an error — and after `handle_error`, `state.usage` is a
mapping, never `None`/absent. -/
theorem usage_always_mapping_after_generate_and_handle_error :
    ∀ (s : AgentState) (co : Item → Option Facts) (lo : Except String LLMResponse),
      (generate_response co lo s).usage ≠ none ∧ (handle_error s).usage ≠ none := by
  intro s co lo
  constructor
  · cases lo with
    | error e => cases hu : s.usage <;> simp [generate_response, hu]
    | ok r => simp [generate_response]
  · cases hu : s.usage <;> simp [handle_error, hu]

/-- C8: for every state holding a non-empty error text, `handle_error`
appends exactly one assistant-role message whose content contains that text
(it is the infix between the fixed apology prefix and suffix), and clears
`state.error` to `None`. -/
theorem handle_error_apology_message
    (s : AgentState) (e : String) (he : s.error = PyStr.str e) (hne : e ≠ "") :
    (handle_error s).messages =
      s.messages ++ [⟨Role.assistant, apologyPre ++ e ++ apologyPost⟩] ∧
    (handle_error s).error = PyStr.null := by
  constructor
  · show s.messages ++ [⟨Role.assistant, apologyPre ++ _ ++ apologyPost⟩] = _
    rw [he]
  · rfl

/-- Witness for C8: the Scenario B timeout state. -/
theorem handle_error_apology_message_witness :
    (handle_error timeoutState).messages =
      timeoutState.messages ++ [⟨Role.assistant, apologyPre ++ "timeout" ++ apologyPost⟩] ∧
    (handle_error timeoutState).error = PyStr.null :=
  handle_error_apology_message timeoutState "timeout" rfl (by decide)

/-- C2 counterexample: a first `corrections_needed: true` verdict with
`validation_retried` still false makes `validation_retried` true, but the
next node is `END`, not `generate_response` — `validate_response` disables
its own retry by setting the flag before the router runs. -/
theorem validate_retry_counterexample :
    (validate_response (some correctionsVerdict) preValidateState).validation_retried = true ∧
    nextTarget Node.validate_response
      (validate_response (some correctionsVerdict) preValidateState) = some Target.END ∧
    route_from_validate_response
      (validate_response (some correctionsVerdict) preValidateState) ≠ "generate_response" := by
  decide

/-- C2 amended: whenever `validate_response` parses a verdict with
`corrections_needed: true` on an error-free state that has an assistant
message, it sets `validation_retried` to true AND the router then sends the
turn to `END`; `generate_response` is never re-entered, whatever the prior
value of `validation_retried` was. -/
theorem validate_corrections_sets_retried_and_ends
    (vr : ValidationResult) (s : AgentState)
    (herr : s.error.truthy = false)
    (hmsg : s.messages.any (fun m => m.role == Role.assistant) = true)
    (hcorr : vr.corrections_needed = some true) :
    (validate_response (some vr) s).validation_retried = true ∧
    nextTarget Node.validate_response (validate_response (some vr) s) = some Target.END := by
  have hne : (s.messages.filter (fun m => m.role == Role.assistant)).isEmpty = false := by
    rcases List.any_eq_true.mp hmsg with ⟨m, hm, hrole⟩
    have hmem : m ∈ s.messages.filter (fun m => m.role == Role.assistant) :=
      List.mem_filter.mpr ⟨hm, hrole⟩
    cases hfe : s.messages.filter (fun m => m.role == Role.assistant) with
    | nil => rw [hfe] at hmem; cases hmem
    | cons a l => rfl
  have hs' : validate_response (some vr) s =
      { s with validation := some vr, validation_retried := true } := by
    simp [validate_response, hne, hcorr]
  rw [hs']
  refine ⟨rfl, ?_⟩
  show validateEdges (route_from_validate_response _) = _
  unfold route_from_validate_response
  simp [herr]
  rfl

/-- Witness for C2 amended: evaluated at the Scenario E state. -/
theorem validate_corrections_sets_retried_and_ends_witness :
    (validate_response (some correctionsVerdict) preValidateState).validation_retried = true ∧
    nextTarget Node.validate_response
      (validate_response (some correctionsVerdict) preValidateState) = some Target.END :=
  validate_corrections_sets_retried_and_ends correctionsVerdict preValidateState
    (by decide) (by decide) (by decide)

/-- C3 evaluation at the failing input: merging two sub-result sets that
each contain an evidence item and a citation for chunk `x1` keeps exactly
one `x1` evidence item, but returns an EMPTY citation list — the citation
pass reuses the `seen_chunk_ids` set already populated by the evidence
pass, so every citation whose chunk is among the merged evidence is
dropped (the claim and spec expect one citation per unique chunk). -/
theorem merge_shared_seen_set_drops_all_citations :
    (QueryDecomposer.merge_results [subResultA, subResultB] "compare A and B").results
      = [evidenceA] ∧
    (QueryDecomposer.merge_results [subResultA, subResultB] "compare A and B").sources
      = [] := by decide

/-- C9 counterexample: a failing checkpoint upsert makes
`SupabaseCheckpointer.put` raise — the outcome is the propagated exception,
contradicting the claim that a checkpoint write failure never propagates. -/
theorem checkpoint_put_failure_propagates :
    (SupabaseCheckpointer.put (fun _ => Except.error "connection reset")
        "thread-1" "cp-1" (0 : Nat) none none).2 = Except.error "connection reset" := rfl

/-- C9 amended: for every failing checkpoint write, `put` logs the failure
and then RE-RAISES it (`logger.error(...); raise`); the deployed graph
meanwhile disables checkpointing altogether (`get_agent_graph` compiles
with `checkpointer = None`), so no in-flight turn ever performs a
checkpoint write. -/
theorem checkpoint_put_logs_and_reraises {α : Type} (e tid cid : String)
    (cp : α) (p : Option String) (m : Option (List (String × String))) :
    (SupabaseCheckpointer.put (fun _ => Except.error e) tid cid cp p m).1 =
      ["Failed to save checkpoint: " ++ e] ∧
    (SupabaseCheckpointer.put (fun _ => Except.error e) tid cid cp p m).2 =
      Except.error e ∧
    get_agent_graph_checkpointer = none :=
  ⟨rfl, rfl, rfl⟩

/-- C10: every item in the merged output — evidence or citation — carries a
truthy identifier: a non-empty `chunk_id`, or failing that a non-empty
`id`; items with neither are removed even when they duplicate nothing. -/
theorem merge_output_carries_truthy_identifier
    (subs : List SubQueryResult) (q : String) (it : Item)
    (hit : it ∈ (QueryDecomposer.merge_results subs q).results ∨
           it ∈ (QueryDecomposer.merge_results subs q).sources) :
    ∃ k, k ≠ "" ∧ (it.chunk_id = some k ∨ it.id = some k) := by
  have hkey : it.dedupKey ≠ none := by
    rcases hit with h | h
    · exact dedupPass_mem_key it _ _ h
    · exact dedupPass_mem_key it _ _ h
  cases hk : it.dedupKey with
  | none => exact absurd hk hkey
  | some k => exact ⟨k, (dedupKey_source it k hk).1, (dedupKey_source it k hk).2⟩

/-- Witness for C10: the merged evidence item of a concrete merge carries
its truthy chunk identifier. -/
theorem merge_output_carries_truthy_identifier_witness :
    ∃ k, k ≠ "" ∧ (evidenceA.chunk_id = some k ∨ evidenceA.id = some k) :=
  merge_output_carries_truthy_identifier [subResultA] "q" evidenceA (Or.inl (by decide))

/-- C5: twenty evidence items of 1000 characters each (Scenario D) put the
estimate at 5000 tokens, over the 4000 budget with more than 5 items: the
compressor returns exactly 5 items, every one of content length at most 503
(500 plus the ellipsis) and tagged `compressed: true` — for every
fact-extraction oracle and query, since this path never calls the LLM. -/
theorem compress_twenty_thousand_char_context
    (oracle : Item → Option Facts) (q : String) (it : Item)
    (hit : it ∈ ContextCompressor.compress_context oracle twentyBigItems q) :
    (ContextCompressor.compress_context oracle twentyBigItems q).length = 5 ∧
    it.content.length ≤ 503 ∧
    it.metadata.get? "compressed" = some (MVal.vB true) := by
  rw [compress_twentyBigItems_eq oracle q] at hit ⊢
  have hit' : it = truncatedBigItem := List.eq_of_mem_replicate hit
  subst hit'
  refine ⟨by rw [List.length_replicate], ?_, rfl⟩
  have hlen : truncatedBigItem.content.length = 503 := by
    show (String.mk (List.replicate 500 'a') ++ "...").length = 503
    rw [String.length_append, String.length_mk, List.length_replicate]
    rfl
  rw [hlen]

/-- Witness for C5: evaluated at the concrete truncated item shape. -/
theorem compress_twenty_thousand_char_context_witness :
    (ContextCompressor.compress_context (fun _ => none) twentyBigItems "funding").length = 5 ∧
    truncatedBigItem.content.length ≤ 503 ∧
    truncatedBigItem.metadata.get? "compressed" = some (MVal.vB true) :=
  compress_twenty_thousand_char_context (fun _ => none) "funding" truncatedBigItem
    (by rw [compress_twentyBigItems_eq]
        exact List.mem_replicate.mpr ⟨by decide, rfl⟩)

/-- C6 counterexample: six oversized items `c0` … `c5` trigger the fast
truncation path, which keeps only the first five — the item `c5` is dropped
from the output entirely, so it is neither returned nor marked
`compressed: true`, contradicting the claim that no input item is dropped
without a marker. -/
theorem compress_dropped_item_counterexample :
    (sixItems.any (fun it => it.chunk_id == some "c5")) = true ∧
    (ContextCompressor.compress_context (fun _ => none) sixItems "q").length = 5 ∧
    ((ContextCompressor.compress_context (fun _ => none) sixItems "q").all
        (fun it => !(it.chunk_id == some "c5"))) = true := by
  rw [compress_sixItems_eq]
  refine ⟨by decide, ?_, ?_⟩
  · rw [List.length_map, List.length_take, sixItems, List.length_map, List.length_range]
    decide
  · decide

/-- C6 amended: the output of `compress_context` never has more items than
the input, and every output item is either an input item returned unchanged
or carries `compressed: true` in its metadata; items beyond the first five
in the fast-truncation path, and items with empty content in the
fact-extraction path, are however dropped from the output entirely. -/
theorem compress_context_monotone_and_marked
    (oracle : Item → Option Facts) (ctx : List Item) (q : String) (it : Item)
    (hit : it ∈ ContextCompressor.compress_context oracle ctx q) :
    (ContextCompressor.compress_context oracle ctx q).length ≤ ctx.length ∧
    (it ∈ ctx ∨ it.metadata.get? "compressed" = some (MVal.vB true)) := by
  have key : ContextCompressor.compress_context oracle ctx q = ctx ∨
      ContextCompressor.compress_context oracle ctx q =
        (ctx.take 5).map (fun item =>
          { item with
              content := if item.content.length > 500 then item.content.take 500 ++ "..."
                         else item.content,
              metadata :=
                (item.metadata.set "compressed" (.vB true)).set "compression_method"
                  (.vS "truncation") }) ∨
      ContextCompressor.compress_context oracle ctx q =
        ctx.filterMap (ContextCompressor.compressItem oracle q) := by
    unfold ContextCompressor.compress_context
    by_cases h1 : ctx.isEmpty
    · left; simp [h1]
    · by_cases h2 : ((ctx.map (fun item => item.content.length)).sum / 4) ≤
          ContextCompressor.max_context_tokens
      · left; simp [h1, h2]
      · by_cases h3 : ctx.length > 5
        · right; left; simp [h1, h2, h3]
        · right; right; simp [h1, h2, h3]
  rcases key with hcase | hcase | hcase <;> rw [hcase] at hit ⊢
  · exact ⟨le_refl _, Or.inl hit⟩
  · constructor
    · rw [List.length_map, List.length_take]
      exact le_trans (min_le_right _ _) (le_refl _)
    · right
      rcases List.mem_map.mp hit with ⟨x, _, hfx⟩
      rw [← hfx]
      exact meta_truncation_marked _
  · constructor
    · exact List.length_filterMap_le _ _
    · right
      rcases List.mem_filterMap.mp hit with ⟨x, _, hfx⟩
      exact compressItem_marked oracle q x it hfx

/-- Witness for C6 amended: evaluated on a small under-budget context,
which the compressor returns unchanged. -/
theorem compress_context_monotone_and_marked_witness :
    (ContextCompressor.compress_context (fun _ => none) [smallItem] "q").length ≤
      ([smallItem] : List Item).length ∧
    (smallItem ∈ ([smallItem] : List Item) ∨
        smallItem.metadata.get? "compressed" = some (MVal.vB true)) :=
  compress_context_monotone_and_marked (fun _ => none) [smallItem] "q" smallItem (by decide)

end Xynenyx
